import Mathlib

/-!
Verification of the streaming speech recognizer core of
`google-cognitive-apis` (src/speechtotext/recognizer_v2.rs, src/errors.rs).

The shallow embedding models the `Recognizer` struct and its methods as
pure state transformers.  A tokio `mpsc` bounded channel is modelled as a
FIFO list of queued items together with boolean flags recording whether the
`Recognizer` still holds the sender / receiver handle.  External effects
(gRPC channel establishment, token resolution) are modelled by an
environment record saying whether each succeeds, and the factory returns
the list of external calls it performed so that observability claims can be
stated.  The transport side of `streaming_recognize` is modelled on its
successful path: the driving call hands the whole queued outbound sequence
to the transport and receives a finite list of inbound responses.
-/

namespace GoogleCognitive

/-- Opaque streaming recognition configuration payload
(`StreamingRecognitionConfig` in the generated v2 API). -/
structure StreamingRecognitionConfig where
  payload : Nat
deriving DecidableEq

/-- The `streaming_request` oneof of `StreamingRecognizeRequest`:
either the initial configuration or a chunk of audio bytes. -/
inductive StreamingRequest where
  | streamingConfig (cfg : StreamingRecognitionConfig)
  | audio (bytes : List Nat)
deriving DecidableEq

/-- `StreamingRecognizeRequest` from the generated v2 API: an optional
oneof payload plus a recognizer resource name. -/
structure StreamingRecognizeRequest where
  streaming_request : Option StreamingRequest
  recognizer : String
deriving DecidableEq

/-- Opaque inbound response payload (`StreamingRecognizeResponse`). -/
structure StreamingRecognizeResponse where
  payload : Nat
deriving DecidableEq

/-- The library error type from `src/errors.rs`: a plain struct holding a
message string and an optional code.  Every `From` conversion in the source
fills `code` with `None`. -/
structure Error where
  message : String
  code : Option String
deriving DecidableEq

/-- `From<TTError> for Error` (errors.rs line 61): formats the transport
error into the message, `code` is `None`. -/
def error_from_transport (msg : String) : Error :=
  { message := msg, code := none }

/-- `From<GAuthError> for Error` (errors.rs line 70): formats the
authentication error into the message, `code` is `None`. -/
def error_from_gauth (msg : String) : Error :=
  { message := msg, code := none }

/-- `From<TStatus> for Error` (errors.rs line 79): formats the gRPC status
into the message, `code` is `None`. -/
def error_from_status (msg : String) : Error :=
  { message := msg, code := none }

/-- `From<ProstDecodeError> for Error` (errors.rs line 160): formats the
decode error into the message, `code` is `None`. -/
def error_from_decode (msg : String) : Error :=
  { message := msg, code := none }

/-- `From<SendError<StreamingRecognizeRequestV2>> for Error`
(errors.rs line 106).  `tokio::sync::mpsc::error::SendError` displays as
the fixed string "channel closed", so the conversion discards the
undelivered item entirely. -/
def error_from_send_error_v2 (_item : StreamingRecognizeRequest) : Error :=
  { message := "channel closed", code := none }

/-- State of the `Recognizer` struct (recognizer_v2.rs lines 26-40).
`audio_queue` holds the items currently enqueued in the bounded outbound
mpsc channel, in FIFO order.  `audio_sender` / `audio_receiver` record
whether the respective `Option` field of the struct is `Some`.
`result_sender` holds the identifier of the result channel whose sender is
currently stored, if any; `next_chan` generates fresh channel identifiers.
`buffer_size` is the capacity the outbound channel was created with. -/
structure Recognizer where
  audio_queue : List StreamingRecognizeRequest
  audio_sender : Bool
  audio_receiver : Bool
  result_sender : Option Nat
  next_chan : Nat
  buffer_size : Nat
deriving DecidableEq

/-- External calls performed by the factory, in order. -/
inductive ExtCall where
  | channelConnect
  | tokenResolve
deriving DecidableEq

/-- Environment for the factory's external collaborators: whether
`new_grpc_channel` succeeds and whether `get_token` succeeds. -/
structure Env where
  channel_ok : Bool
  token_ok : Bool
deriving DecidableEq

/-- The configuration request built by `create_streaming_recognizer`
(recognizer_v2.rs lines 65-68). -/
def streaming_config_request (config : StreamingRecognitionConfig) :
    StreamingRecognizeRequest :=
  { streaming_request := some (StreamingRequest.streamingConfig config)
    recognizer := "" }

/-- `streaming_request_from_bytes` (recognizer_v2.rs lines 166-171). -/
def streaming_request_from_bytes (audio_bytes : List Nat) :
    StreamingRecognizeRequest :=
  { streaming_request := some (StreamingRequest.audio audio_bytes)
    recognizer := "" }

/-- The `Recognizer` struct built at the end of
`create_streaming_recognizer` (recognizer_v2.rs lines 72-77): both channel
halves present, no result sender, configuration request already queued. -/
def initial_recognizer (config : StreamingRecognitionConfig)
    (buffer_size : Option Nat) : Recognizer :=
  { audio_queue := [streaming_config_request config]
    audio_sender := true
    audio_receiver := true
    result_sender := none
    next_chan := 0
    buffer_size := buffer_size.getD 1000 }

/-- `create_streaming_recognizer` (recognizer_v2.rs lines 46-78).
The source first awaits `new_grpc_channel` (line 55), then calls
`get_token` (line 57), then creates the bounded channel with capacity
`buffer_size.unwrap_or(1000)` (lines 62-63) and sends the configuration
request into it (line 70) before returning the struct.  The initial send
succeeds because the just-created receiver is alive and the channel is
empty.  Returns the list of external calls performed together with the
result. -/
def create_streaming_recognizer (env : Env)
    (config : StreamingRecognitionConfig) (buffer_size : Option Nat) :
    List ExtCall × Except Error Recognizer :=
  if env.channel_ok = false then
    ([ExtCall.channelConnect], Except.error (error_from_transport "transport error"))
  else if env.token_ok = false then
    ([ExtCall.channelConnect, ExtCall.tokenResolve],
      Except.error (error_from_gauth "invalid credentials"))
  else
    ([ExtCall.channelConnect, ExtCall.tokenResolve],
      Except.ok (initial_recognizer config buffer_size))

/-- A send on any producer handle of the outbound channel: appends the
message to the FIFO queue (tokio mpsc preserves enqueue order). -/
def audio_send (r : Recognizer) (msg : StreamingRecognizeRequest) :
    Recognizer :=
  { r with audio_queue := r.audio_queue ++ [msg] }

/-- Sends a list of messages in order on the producer handle. -/
def send_all (r : Recognizer) (msgs : List StreamingRecognizeRequest) :
    Recognizer :=
  List.foldl audio_send r msgs

/-- `get_audio_sink` (recognizer_v2.rs lines 126-132): clones the stored
sender if present; the struct itself is not modified. -/
def get_audio_sink (r : Recognizer) : Recognizer × Option Unit :=
  if r.audio_sender then (r, some ()) else (r, none)

/-- `take_audio_sink` (recognizer_v2.rs lines 138-144): `Option::take`
moves the sender out, leaving `None` behind. -/
def take_audio_sink (r : Recognizer) : Recognizer × Option Unit :=
  if r.audio_sender then ({ r with audio_sender := false }, some ())
  else (r, none)

/-- `drop_audio_sink` (recognizer_v2.rs lines 147-149): `Option::take`
discarding the result. -/
def drop_audio_sink (r : Recognizer) : Recognizer :=
  { r with audio_sender := false }

/-- `get_streaming_result_receiver` (recognizer_v2.rs lines 153-162):
creates a fresh bounded channel, stores the sender half (replacing any
previous one) and returns the receiver half, modelled by a fresh channel
identifier. -/
def get_streaming_result_receiver (r : Recognizer)
    (_buffer_size : Option Nat) : Recognizer × Nat :=
  ({ r with result_sender := some r.next_chan, next_chan := r.next_chan + 1 },
    r.next_chan)

/-- Forwarding loop body of `streaming_recognize` (lines 218-222): each
inbound response is sent to the stored result sender, if one exists. -/
def forward_results (sender : Option Nat)
    (inbound : List StreamingRecognizeResponse) :
    List (Nat × StreamingRecognizeResponse) :=
  match sender with
  | none => []
  | some c => inbound.map (fun m => (c, m))

/-- Observable outcome of one `streaming_recognize` invocation. -/
structure DriveResult where
  recognizer : Recognizer
  sent_to_transport : List StreamingRecognizeRequest
  rpc_issued : Bool
  deliveries : List (Nat × StreamingRecognizeResponse)
  ret : Except Error Unit

/-- `streaming_recognize` (recognizer_v2.rs lines 204-226), successful
transport path.  If `audio_receiver` is still present it is taken (line
206), the RPC is issued with a `ReceiverStream` over it — so the transport
observes exactly the enqueued outbound items in FIFO order — and each
inbound response is forwarded to the stored result sender.  If the
receiver was already taken, the `if let` body is skipped and the function
returns `Ok(())` immediately. -/
def streaming_recognize (r : Recognizer)
    (inbound : List StreamingRecognizeResponse) : DriveResult :=
  if r.audio_receiver then
    { recognizer := { r with audio_receiver := false, audio_queue := [] }
      sent_to_transport := r.audio_queue
      rpc_issued := true
      deliveries := forward_results r.result_sender inbound
      ret := Except.ok () }
  else
    { recognizer := r
      sent_to_transport := []
      rpc_issued := false
      deliveries := []
      ret := Except.ok () }

/-- Observable outcome of one `streaming_recognize_async_stream`
invocation. -/
structure StreamDriveResult where
  recognizer : Recognizer
  sent_to_transport : List StreamingRecognizeRequest
  rpc_issued : Bool
  yielded : List StreamingRecognizeResponse
deriving DecidableEq

/-- `streaming_recognize_async_stream` (recognizer_v2.rs lines 178-199),
successful transport path.  Same take of `audio_receiver` (line 183); the
inbound responses are yielded directly on the returned lazy stream instead
of being forwarded to a channel.  If the receiver was already taken the
stream body is skipped and the stream yields nothing. -/
def streaming_recognize_async_stream (r : Recognizer)
    (inbound : List StreamingRecognizeResponse) : StreamDriveResult :=
  if r.audio_receiver then
    { recognizer := { r with audio_receiver := false, audio_queue := [] }
      sent_to_transport := r.audio_queue
      rpc_issued := true
      yielded := inbound }
  else
    { recognizer := r
      sent_to_transport := []
      rpc_issued := false
      yielded := [] }

/-- One invocation of either driving entry point, with the inbound
responses the transport would produce on that invocation. -/
inductive DriveCall where
  | channelDrive (inbound : List StreamingRecognizeResponse)
  | streamDrive (inbound : List StreamingRecognizeResponse)
deriving DecidableEq

/-- Runs a sequence of driving invocations, returning the final state and
the number of RPCs actually issued. -/
def run_drive_calls : Recognizer → List DriveCall → Recognizer × Nat
  | r, [] => (r, 0)
  | r, DriveCall.channelDrive inbound :: cs =>
      let d := streaming_recognize r inbound
      let rest := run_drive_calls d.recognizer cs
      (rest.1, (if d.rpc_issued then 1 else 0) + rest.2)
  | r, DriveCall.streamDrive inbound :: cs =>
      let d := streaming_recognize_async_stream r inbound
      let rest := run_drive_calls d.recognizer cs
      (rest.1, (if d.rpc_issued then 1 else 0) + rest.2)

/-- Operations on the producer-handle accessors, for stating persistence
of the taken state across any later sequence of accessor calls. -/
inductive SinkOp where
  | takeSink
  | cloneSink
  | dropSink
deriving DecidableEq

/-- Applies one producer-handle accessor, discarding the returned value. -/
def apply_sink_op (r : Recognizer) : SinkOp → Recognizer
  | SinkOp.takeSink => (take_audio_sink r).1
  | SinkOp.cloneSink => (get_audio_sink r).1
  | SinkOp.dropSink => drop_audio_sink r

/-- Applies a sequence of producer-handle accessors in order. -/
def apply_sink_ops (r : Recognizer) (ops : List SinkOp) : Recognizer :=
  List.foldl apply_sink_op r ops

/-- Iterates `get_audio_sink`, keeping only the state. -/
def iterate_get_audio_sink (r : Recognizer) : Nat → Recognizer
  | 0 => r
  | n + 1 => iterate_get_audio_sink (get_audio_sink r).1 n

/-! ## Helper lemmas -/

/-- Sending a list of messages appends them, in order, to the queue and
changes nothing else. -/
theorem send_all_state (msgs : List StreamingRecognizeRequest) :
    ∀ r : Recognizer,
      send_all r msgs = { r with audio_queue := r.audio_queue ++ msgs } := by
  induction msgs with
  | nil => intro r; simp [send_all]
  | cons m ms ih =>
      intro r
      show send_all (audio_send r m) ms = _
      rw [ih]
      simp [audio_send]

/-- `get_audio_sink` never modifies the state. -/
theorem get_audio_sink_state (r : Recognizer) : (get_audio_sink r).1 = r := by
  cases hr : r.audio_sender <;> simp [get_audio_sink, hr]

/-- Once the producer handle is gone, no accessor sequence restores it. -/
theorem apply_sink_ops_sender_false :
    ∀ (ops : List SinkOp) (r : Recognizer), r.audio_sender = false →
      (apply_sink_ops r ops).audio_sender = false := by
  intro ops
  induction ops with
  | nil => intro r h; simpa [apply_sink_ops] using h
  | cons op ops ih =>
      intro r h
      show (apply_sink_ops (apply_sink_op r op) ops).audio_sender = false
      apply ih
      cases op with
      | takeSink => simp [apply_sink_op, take_audio_sink, h]
      | cloneSink => simpa [apply_sink_op, get_audio_sink_state] using h
      | dropSink => simp [apply_sink_op, drop_audio_sink]

/-- `take_audio_sink` on a recognizer without the producer handle returns
`none` and changes nothing. -/
theorem take_audio_sink_absent (r : Recognizer)
    (h : r.audio_sender = false) : take_audio_sink r = (r, none) := by
  simp [take_audio_sink, h]

/-- `get_audio_sink` on a recognizer without the producer handle returns
`none`. -/
theorem get_audio_sink_absent (r : Recognizer)
    (h : r.audio_sender = false) : (get_audio_sink r).2 = none := by
  simp [get_audio_sink, h]

/-- A driving sequence started without the consumer handle issues no RPC
and leaves the state unchanged. -/
theorem run_drive_calls_closed :
    ∀ (cs : List DriveCall) (r : Recognizer), r.audio_receiver = false →
      (run_drive_calls r cs).1 = r ∧ (run_drive_calls r cs).2 = 0 := by
  intro cs
  induction cs with
  | nil => intro r _; simp [run_drive_calls]
  | cons c cs ih =>
      intro r h
      cases c with
      | channelDrive inbound =>
          have hs : streaming_recognize r inbound
              = { recognizer := r, sent_to_transport := [], rpc_issued := false,
                  deliveries := [], ret := Except.ok () } := by
            simp [streaming_recognize, h]
          have := ih r h
          simp [run_drive_calls, hs, this.1, this.2]
      | streamDrive inbound =>
          have hs : streaming_recognize_async_stream r inbound
              = { recognizer := r, sent_to_transport := [], rpc_issued := false,
                  yielded := [] } := by
            simp [streaming_recognize_async_stream, h]
          have := ih r h
          simp [run_drive_calls, hs, this.1, this.2]

/-! ## Claim theorems -/

/-- C1: for every sequence of data messages enqueued on the producer
handle after `create_streaming_recognizer` returns, the driving call
`streaming_recognize` passes to the transport exactly the configuration
request first, followed by exactly those messages in enqueue order, with
no loss, duplication or reordering. -/
theorem streaming_outbound_order (env : Env)
    (config : StreamingRecognitionConfig) (bsz : Option Nat)
    (rec : Recognizer)
    (h : (create_streaming_recognizer env config bsz).2 = Except.ok rec)
    (ds : List StreamingRecognizeRequest)
    (inbound : List StreamingRecognizeResponse) :
    (streaming_recognize (send_all rec ds) inbound).sent_to_transport
      = streaming_config_request config :: ds
    ∧ (streaming_recognize (send_all rec ds) inbound).rpc_issued = true := by
  have hrec : rec = initial_recognizer config bsz := by
    unfold create_streaming_recognizer at h
    by_cases hc : env.channel_ok = false
    · simp [hc] at h
    · by_cases ht : env.token_ok = false
      · simp [hc, ht] at h
      · simp [hc, ht] at h
        exact h.symm
  subst hrec
  rw [send_all_state]
  simp [streaming_recognize, initial_recognizer]

/-- Witness for C1 at a concrete configuration and two audio chunks. -/
theorem streaming_outbound_order_witness :
    (streaming_recognize (send_all (initial_recognizer ⟨5⟩ none)
        [streaming_request_from_bytes [10], streaming_request_from_bytes [11]])
        []).sent_to_transport
      = streaming_config_request ⟨5⟩ ::
        [streaming_request_from_bytes [10], streaming_request_from_bytes [11]]
    ∧ (streaming_recognize (send_all (initial_recognizer ⟨5⟩ none)
        [streaming_request_from_bytes [10], streaming_request_from_bytes [11]])
        []).rpc_issued = true :=
  streaming_outbound_order ⟨true, true⟩ ⟨5⟩ none (initial_recognizer ⟨5⟩ none)
    rfl [streaming_request_from_bytes [10], streaming_request_from_bytes [11]]
    []

/-- C2: invoking `streaming_recognize` when the outbound consumer handle
has already been taken is a no-op: it returns `Ok(())`, issues no RPC,
forwards nothing and leaves the state unchanged. -/
theorem streaming_recognize_second_call_noop (r : Recognizer)
    (inbound : List StreamingRecognizeResponse)
    (h : r.audio_receiver = false) :
    streaming_recognize r inbound
      = { recognizer := r, sent_to_transport := [], rpc_issued := false,
          deliveries := [], ret := Except.ok () } := by
  simp [streaming_recognize, h]

/-- Witness for C2: the state left by a completed first invocation. -/
theorem streaming_recognize_second_call_noop_witness :
    streaming_recognize { initial_recognizer ⟨5⟩ none with audio_receiver := false } []
      = { recognizer := { initial_recognizer ⟨5⟩ none with audio_receiver := false },
          sent_to_transport := [], rpc_issued := false, deliveries := [],
          ret := Except.ok () } :=
  streaming_recognize_second_call_noop
    { initial_recognizer ⟨5⟩ none with audio_receiver := false } [] rfl

/-- C3: `create_streaming_recognizer` is atomic: on success the returned
recognizer already holds the configuration request as the sole queued
outbound item (enqueued synchronously before returning), with both channel
halves present and the requested capacity; if channel establishment or
token resolution fails it returns an error and no recognizer. -/
theorem create_streaming_recognizer_atomic (env : Env)
    (config : StreamingRecognitionConfig) (bsz : Option Nat) :
    (env.channel_ok = true → env.token_ok = true →
      (create_streaming_recognizer env config bsz).2
        = Except.ok (initial_recognizer config bsz)
      ∧ (initial_recognizer config bsz).audio_queue
        = [streaming_config_request config]
      ∧ (initial_recognizer config bsz).buffer_size = bsz.getD 1000)
    ∧ (env.channel_ok = false ∨ env.token_ok = false →
        ∃ e, (create_streaming_recognizer env config bsz).2
          = Except.error e) := by
  constructor
  · intro hc ht
    refine ⟨?_, rfl, rfl⟩
    simp [create_streaming_recognizer, hc, ht]
  · intro hfail
    by_cases hc : env.channel_ok = false
    · exact ⟨error_from_transport "transport error",
        by simp [create_streaming_recognizer, hc]⟩
    · have ht : env.token_ok = false := by
        rcases hfail with h | h
        · exact absurd h hc
        · exact h
      exact ⟨error_from_gauth "invalid credentials",
        by simp [create_streaming_recognizer, hc, ht]⟩

/-- Witness for C3: success with all collaborators succeeding, failure
when token resolution fails. -/
theorem create_streaming_recognizer_atomic_witness :
    ((create_streaming_recognizer ⟨true, true⟩ ⟨7⟩ none).2
      = Except.ok (initial_recognizer ⟨7⟩ none)
      ∧ (initial_recognizer ⟨7⟩ none).audio_queue
        = [streaming_config_request ⟨7⟩]
      ∧ (initial_recognizer ⟨7⟩ none).buffer_size = (none : Option Nat).getD 1000)
    ∧ ∃ e, (create_streaming_recognizer ⟨true, false⟩ ⟨7⟩ none).2
        = Except.error e :=
  ⟨(create_streaming_recognizer_atomic ⟨true, true⟩ ⟨7⟩ none).1 rfl rfl,
    (create_streaming_recognizer_atomic ⟨true, false⟩ ⟨7⟩ none).2 (Or.inr rfl)⟩

/-- C4: `take_audio_sink` transfers ownership: on a recognizer holding the
producer handle it returns it and leaves none behind, so after any later
sequence of accessor calls both `take_audio_sink` and `get_audio_sink`
return `none`; on a recognizer whose handle was already taken it returns
`none` and changes nothing. -/
theorem take_audio_sink_transfers (r : Recognizer) (ops : List SinkOp) :
    (r.audio_sender = true →
      (take_audio_sink r).2 = some ()
      ∧ (take_audio_sink r).1.audio_sender = false
      ∧ (take_audio_sink (apply_sink_ops (take_audio_sink r).1 ops)).2 = none
      ∧ (get_audio_sink (apply_sink_ops (take_audio_sink r).1 ops)).2 = none)
    ∧ (r.audio_sender = false → take_audio_sink r = (r, none)) := by
  constructor
  · intro h
    have h1 : (take_audio_sink r).1.audio_sender = false := by
      simp [take_audio_sink, h]
    have h2 : (apply_sink_ops (take_audio_sink r).1 ops).audio_sender
        = false := apply_sink_ops_sender_false ops _ h1
    refine ⟨by simp [take_audio_sink, h], h1, ?_, get_audio_sink_absent _ h2⟩
    rw [take_audio_sink_absent _ h2]
  · intro h
    exact take_audio_sink_absent r h

/-- Witness for C4 on concrete recognizers with and without the handle. -/
theorem take_audio_sink_transfers_witness :
    ((take_audio_sink (initial_recognizer ⟨7⟩ none)).2 = some ()
      ∧ (take_audio_sink (initial_recognizer ⟨7⟩ none)).1.audio_sender = false
      ∧ (take_audio_sink (apply_sink_ops
          (take_audio_sink (initial_recognizer ⟨7⟩ none)).1
          [SinkOp.cloneSink, SinkOp.takeSink])).2 = none
      ∧ (get_audio_sink (apply_sink_ops
          (take_audio_sink (initial_recognizer ⟨7⟩ none)).1
          [SinkOp.cloneSink, SinkOp.takeSink])).2 = none)
    ∧ (take_audio_sink { initial_recognizer ⟨7⟩ none with audio_sender := false }
        = ({ initial_recognizer ⟨7⟩ none with audio_sender := false }, none)) :=
  ⟨(take_audio_sink_transfers (initial_recognizer ⟨7⟩ none)
      [SinkOp.cloneSink, SinkOp.takeSink]).1 rfl,
    (take_audio_sink_transfers
      { initial_recognizer ⟨7⟩ none with audio_sender := false } []).2 rfl⟩

/-- C5: `get_audio_sink` is a pure clone accessor: after any number of
calls the recognizer's stored producer handle is unchanged, and the call
returns `none` exactly when the recognizer holds no producer handle. -/
theorem get_audio_sink_frame (r : Recognizer) (n : Nat) :
    iterate_get_audio_sink r n = r
    ∧ ((get_audio_sink r).2 = none ↔ r.audio_sender = false) := by
  constructor
  · induction n with
    | zero => rfl
    | succ k ih =>
        show iterate_get_audio_sink (get_audio_sink r).1 k = r
        rw [get_audio_sink_state]
        exact ih
  · cases hr : r.audio_sender <;> simp [get_audio_sink, hr]

/-- C6: a second `get_streaming_result_receiver` call replaces the stored
result sender: every message forwarded by the driving loop afterwards goes
to the second call's channel, the first call's channel receives nothing,
and the two channels are distinct. -/
theorem result_receiver_replacement (r : Recognizer)
    (inbound : List StreamingRecognizeResponse)
    (h : r.audio_receiver = true) :
    (get_streaming_result_receiver r none).2
      ≠ (get_streaming_result_receiver
          (get_streaming_result_receiver r none).1 none).2
    ∧ (streaming_recognize (get_streaming_result_receiver
          (get_streaming_result_receiver r none).1 none).1 inbound).deliveries
      = inbound.map (fun m =>
          ((get_streaming_result_receiver
            (get_streaming_result_receiver r none).1 none).2, m))
    ∧ ∀ q ∈ (streaming_recognize (get_streaming_result_receiver
          (get_streaming_result_receiver r none).1 none).1 inbound).deliveries,
        q.1 ≠ (get_streaming_result_receiver r none).2 := by
  refine ⟨?_, ?_, ?_⟩
  · simp [get_streaming_result_receiver]
  · simp [get_streaming_result_receiver, streaming_recognize,
      forward_results, h]
  · intro q hq
    simp [get_streaming_result_receiver, streaming_recognize,
      forward_results, h] at hq ⊢
    rcases hq with ⟨a, _, rfl, _⟩
    simp

/-- Witness for C6 on a fresh recognizer with one inbound response. -/
theorem result_receiver_replacement_witness :
    (get_streaming_result_receiver (initial_recognizer ⟨3⟩ none) none).2
      ≠ (get_streaming_result_receiver
          (get_streaming_result_receiver (initial_recognizer ⟨3⟩ none) none).1
          none).2
    ∧ (streaming_recognize (get_streaming_result_receiver
          (get_streaming_result_receiver (initial_recognizer ⟨3⟩ none) none).1
          none).1 [⟨9⟩]).deliveries
      = List.map (fun m =>
          ((get_streaming_result_receiver
            (get_streaming_result_receiver (initial_recognizer ⟨3⟩ none) none).1
            none).2, m)) [⟨9⟩]
    ∧ ∀ q ∈ (streaming_recognize (get_streaming_result_receiver
          (get_streaming_result_receiver (initial_recognizer ⟨3⟩ none) none).1
          none).1 [⟨9⟩]).deliveries,
        q.1 ≠ (get_streaming_result_receiver (initial_recognizer ⟨3⟩ none)
          none).2 :=
  result_receiver_replacement (initial_recognizer ⟨3⟩ none) [⟨9⟩] rfl

/-- C7 counterexample: with a channel factory that succeeds and credential
resolution that fails, `create_streaming_recognizer` fails but its call
trace contains the channel-establishment call, performed before token
resolution — refuting the claim that no channel-establishment attempt is
observable. -/
theorem create_token_failure_channel_observed :
    (∃ e, (create_streaming_recognizer ⟨true, false⟩ ⟨0⟩ none).2
      = Except.error e)
    ∧ ExtCall.channelConnect
        ∈ (create_streaming_recognizer ⟨true, false⟩ ⟨0⟩ none).1 := by
  exact ⟨⟨error_from_gauth "invalid credentials", rfl⟩, by decide⟩

/-- C7 amended: if credential resolution fails (with channel establishment
succeeding), `create_streaming_recognizer` returns an error — carrying no
category tag — and no recognizer; however the Channel Factory has already
been invoked before the failure, since channel establishment precedes
token resolution. -/
theorem create_token_failure_trace (env : Env)
    (config : StreamingRecognitionConfig) (bsz : Option Nat)
    (hc : env.channel_ok = true) (ht : env.token_ok = false) :
    (∃ e, (create_streaming_recognizer env config bsz).2 = Except.error e
      ∧ e.code = none)
    ∧ (create_streaming_recognizer env config bsz).1
      = [ExtCall.channelConnect, ExtCall.tokenResolve] := by
  refine ⟨⟨error_from_gauth "invalid credentials", ?_, rfl⟩, ?_⟩ <;>
    simp [create_streaming_recognizer, hc, ht, error_from_gauth]

/-- Witness for the amended C7 at a concrete environment. -/
theorem create_token_failure_trace_witness :
    (∃ e, (create_streaming_recognizer ⟨true, false⟩ ⟨1⟩ none).2
      = Except.error e ∧ e.code = none)
    ∧ (create_streaming_recognizer ⟨true, false⟩ ⟨1⟩ none).1
      = [ExtCall.channelConnect, ExtCall.tokenResolve] :=
  create_token_failure_trace ⟨true, false⟩ ⟨1⟩ none rfl rfl

/-- C8 counterexample: a transport-conversion error equals an
authentication-conversion error with the same message (both leave `code`
empty), so no tag distinguishes the taxonomy categories; and the
`SendError` conversion maps two different undelivered items to the same
error value, so the undelivered item is not carried back. -/
theorem error_untagged_counterexample :
    error_from_transport "x" = error_from_gauth "x"
    ∧ (error_from_send_error_v2 (streaming_request_from_bytes [1])).code
      = none
    ∧ error_from_send_error_v2 (streaming_request_from_bytes [1])
      = error_from_send_error_v2 (streaming_request_from_bytes [2])
    ∧ streaming_request_from_bytes [1] ≠ streaming_request_from_bytes [2] :=
  ⟨rfl, rfl, rfl, by decide⟩

/-- C8 amended: every library error is the single untagged struct
`{message, code}`; every conversion sets `code` to `None`, so errors from
different taxonomy categories carry no distinguishing tag, and the
`SendError` conversion produces the constant error
`{message := "channel closed", code := None}`, discarding the undelivered
item. -/
theorem error_conversions_untagged (m : String)
    (item : StreamingRecognizeRequest) :
    (error_from_transport m).code = none
    ∧ (error_from_gauth m).code = none
    ∧ (error_from_status m).code = none
    ∧ (error_from_decode m).code = none
    ∧ error_from_send_error_v2 item
      = { message := "channel closed", code := none } :=
  ⟨rfl, rfl, rfl, rfl, rfl⟩

/-- C9: `drop_audio_sink` removes the producer handle — afterwards both
`take_audio_sink` and `get_audio_sink` return `none` — and it is
idempotent: dropping a second time leaves the recognizer unchanged. -/
theorem drop_audio_sink_removes_and_idempotent (r : Recognizer) :
    (take_audio_sink (drop_audio_sink r)).2 = none
    ∧ (get_audio_sink (drop_audio_sink r)).2 = none
    ∧ drop_audio_sink (drop_audio_sink r) = drop_audio_sink r
    ∧ (drop_audio_sink r).audio_sender = false := by
  refine ⟨?_, ?_, rfl, rfl⟩ <;>
    simp [drop_audio_sink, take_audio_sink, get_audio_sink]

/-- C10: the two driving entry points are mutually exclusive: across any
sequence of invocations of `streaming_recognize` and
`streaming_recognize_async_stream` at most one RPC is issued, and once
the consumer handle is gone every later `streaming_recognize` returns
`Ok(())` without a call and every later stream yields no items. -/
theorem driving_entry_points_exclusive (r : Recognizer)
    (cs : List DriveCall) (inbound : List StreamingRecognizeResponse) :
    (run_drive_calls r cs).2 ≤ 1
    ∧ (r.audio_receiver = false →
        streaming_recognize r inbound
          = { recognizer := r, sent_to_transport := [], rpc_issued := false,
              deliveries := [], ret := Except.ok () }
        ∧ (streaming_recognize_async_stream r inbound).yielded = []
        ∧ (streaming_recognize_async_stream r inbound).rpc_issued = false) := by
  constructor
  · cases cs with
    | nil => simp [run_drive_calls]
    | cons c cs =>
        cases c with
        | channelDrive i =>
            cases hr : r.audio_receiver with
            | false =>
                have hs : streaming_recognize r i
                    = { recognizer := r, sent_to_transport := [],
                        rpc_issued := false, deliveries := [],
                        ret := Except.ok () } := by
                  simp [streaming_recognize, hr]
                have hrest := run_drive_calls_closed cs r hr
                simp [run_drive_calls, hs, hrest.2]
            | true =>
                have hrec : (streaming_recognize r i).recognizer.audio_receiver
                    = false := by
                  simp [streaming_recognize, hr]
                have hiss : (streaming_recognize r i).rpc_issued = true := by
                  simp [streaming_recognize, hr]
                have hrest := run_drive_calls_closed cs _ hrec
                simp [run_drive_calls, hrest.2, hiss]
        | streamDrive i =>
            cases hr : r.audio_receiver with
            | false =>
                have hs : streaming_recognize_async_stream r i
                    = { recognizer := r, sent_to_transport := [],
                        rpc_issued := false, yielded := [] } := by
                  simp [streaming_recognize_async_stream, hr]
                have hrest := run_drive_calls_closed cs r hr
                simp [run_drive_calls, hs, hrest.2]
            | true =>
                have hrec :
                    (streaming_recognize_async_stream r i).recognizer.audio_receiver
                    = false := by
                  simp [streaming_recognize_async_stream, hr]
                have hiss :
                    (streaming_recognize_async_stream r i).rpc_issued = true := by
                  simp [streaming_recognize_async_stream, hr]
                have hrest := run_drive_calls_closed cs _ hrec
                simp [run_drive_calls, hrest.2, hiss]
  · intro h
    refine ⟨?_, ?_, ?_⟩ <;> simp [streaming_recognize,
      streaming_recognize_async_stream, h]

/-- Witness for C10: a consumed recognizer driven twice more. -/
theorem driving_entry_points_exclusive_witness :
    (run_drive_calls { initial_recognizer ⟨2⟩ none with audio_receiver := false }
        [DriveCall.channelDrive [], DriveCall.streamDrive []]).2 ≤ 1
    ∧ (streaming_recognize
          { initial_recognizer ⟨2⟩ none with audio_receiver := false } [⟨4⟩]
        = { recognizer :=
              { initial_recognizer ⟨2⟩ none with audio_receiver := false },
            sent_to_transport := [], rpc_issued := false, deliveries := [],
            ret := Except.ok () }
        ∧ (streaming_recognize_async_stream
            { initial_recognizer ⟨2⟩ none with audio_receiver := false }
            [⟨4⟩]).yielded = []
        ∧ (streaming_recognize_async_stream
            { initial_recognizer ⟨2⟩ none with audio_receiver := false }
            [⟨4⟩]).rpc_issued = false) :=
  ⟨(driving_entry_points_exclusive
      { initial_recognizer ⟨2⟩ none with audio_receiver := false }
      [DriveCall.channelDrive [], DriveCall.streamDrive []] [⟨4⟩]).1,
    (driving_entry_points_exclusive
      { initial_recognizer ⟨2⟩ none with audio_receiver := false }
      [DriveCall.channelDrive [], DriveCall.streamDrive []] [⟨4⟩]).2 rfl⟩

end GoogleCognitive
